import Mathlib

/-!
Verification of the crawl-orchestration behavior of the scraper scripts
(acta.py, acta_medica_optimized.py, rpmgf.py, rpmgf_improved.py) against the
natural-language specification.  The HTML-parsing layer (BeautifulSoup) is
external: a fetched page is modelled as the tuple of parse results the code
reads from it; everything the scripts compute from those results is embedded
faithfully, including their string scanning, retry loops, arithmetic and
fallback constants.
-/

/-! ## Python string primitives used by the scripts -/

/-- ASCII whitespace recognized by the Python str.strip / str.split and the regex
class backslash-s (space, tab, newline, carriage return, vertical tab,
form feed).  Unicode whitespace is not modelled; the pagination texts involved
are ASCII. -/
def isSpaceChar (c : Char) : Bool :=
  c == ' ' || c == '\t' || c == '\n' || c == '\r' || c == Char.ofNat 11 || c == Char.ofNat 12

/-- Python str.strip(): remove leading and trailing whitespace. -/
def pyStrip (s : String) : String :=
  String.mk (((s.data.dropWhile isSpaceChar).reverse.dropWhile isSpaceChar).reverse)

/-- Numeric value of a run of decimal digit characters. -/
def digitsToNat (ds : List Char) : Nat :=
  ds.foldl (fun acc c => acc * 10 + (c.toNat - 48)) 0

/-- Greedy maximal run of decimal digits at the head of the character list,
together with the rest. -/
def takeDigits : List Char → List Char × List Char
  | [] => ([], [])
  | c :: cs =>
    if c.isDigit then
      let p := takeDigits cs
      (c :: p.1, p.2)
    else ([], c :: cs)

/-- Greedy maximal run of whitespace at the head of the character list,
together with the rest. -/
def takeSpaces : List Char → List Char × List Char
  | [] => ([], [])
  | c :: cs =>
    if isSpaceChar c then
      let p := takeSpaces cs
      (c :: p.1, p.2)
    else ([], c :: cs)

/-- Attempt to match the regular expression used by rpmgf_improved.py
_detect_pagination, namely digits, a hyphen, digits, whitespace, the letters
of, whitespace, digits, anchored at the head of the character list.  Greedy
matching of each quantifier is exact here: every quantified class is followed
by a literal outside the class, so the regex engine cannot backtrack into a
shorter match. -/
def matchPaginationAt (cs : List Char) : Option (Nat × Nat × Nat) :=
  let p1 := takeDigits cs
  if p1.1.isEmpty then none else
  match p1.2 with
  | '-' :: r2 =>
    let p2 := takeDigits r2
    if p2.1.isEmpty then none else
    let p3 := takeSpaces p2.2
    if p3.1.isEmpty then none else
    match p3.2 with
    | 'o' :: 'f' :: r5 =>
      let p4 := takeSpaces r5
      if p4.1.isEmpty then none else
      let p5 := takeDigits p4.2
      if p5.1.isEmpty then none else
      some (digitsToNat p1.1, digitsToNat p2.1, digitsToNat p5.1)
    | _ => none
  | _ => none

/-- Leftmost match of the pagination pattern in the text, as re.search does:
the first starting position (scanning left to right) at which the pattern
matches. -/
def searchPagination : List Char → Option (Nat × Nat × Nat)
  | [] => none
  | c :: cs =>
    match matchPaginationAt (c :: cs) with
    | some r => some r
    | none => searchPagination cs

/-! ## rpmgf_improved.py pagination discovery -/

/-- The dictionary built by rpmgf_improved.py _detect_pagination (only the
three keys get_magazine_links reads). -/
structure PaginationInfo where
  total_issues : Int
  issues_per_page : Int
  total_pages : Int
  deriving Repr, DecidableEq

/-- rpmgf_improved.py _detect_pagination: search the page text for the
pagination pattern; on a match compute issues_per_page = end - start + 1 and
total_pages by Python floor division (t + p - 1) // p; a zero issues_per_page
raises ZeroDivisionError which the surrounding except-clause turns into None.
If the pattern is absent but the page has a Next link, return the hardcoded
fallback of 169 issues, 50 per page, 4 pages; otherwise None.  The Next-link
lookup (an anchor whose text matches proximo, next, or Seguinte) is a fact
about the page and is passed in as hasNextLink. -/
def rpmgf_detect_pagination (text : String) (hasNextLink : Bool) : Option PaginationInfo :=
  match searchPagination text.data with
  | some (s, e, t) =>
    let ipp : Int := (e : Int) - (s : Int) + 1
    if ipp = 0 then none
    else some ⟨(t : Int), ipp, ((t : Int) + ipp - 1).fdiv ipp⟩
  | none =>
    if hasNextLink then some ⟨169, 50, 4⟩ else none

/-- rpmgf_improved.py get_magazine_links, pagination part: when
_detect_pagination returns None the script scrapes a single page
(total_pages = 1), otherwise it uses the detected total_pages. -/
def rpmgf_total_pages (text : String) (hasNextLink : Bool) : Int :=
  match rpmgf_detect_pagination text hasNextLink with
  | none => 1
  | some info => info.total_pages

/-! ## acta.py pagination discovery (get_archive_pages) -/

/-- Python text.split with separator of: split at each non-overlapping
occurrence of the two-letter separator, scanning left to right.  The second
argument accumulates the current piece in reverse. -/
def splitOnOfAux : List Char → List Char → List (List Char)
  | [], acc => [acc.reverse]
  | 'o' :: 'f' :: rest, acc => acc.reverse :: splitOnOfAux rest []
  | c :: rest, acc => splitOnOfAux rest (c :: acc)

/-- Python text.split of the separator of, as a String function. -/
def pySplitOnOf (s : String) : List String :=
  (splitOnOfAux s.data []).map String.mk

/-- Python s.strip().split()[0]: the first maximal whitespace-free token of
the string, or none (IndexError) when the string is all whitespace. -/
def firstToken (s : String) : Option String :=
  let cs := s.data.dropWhile isSpaceChar
  match cs.takeWhile (fun c => !isSpaceChar c) with
  | [] => none
  | tok => some (String.mk tok)

/-- Python int() applied to a whitespace-free token: an optional sign followed
by one or more decimal digits (digit-group underscores are not modelled). -/
def pyParseInt (s : String) : Option Int :=
  match s.data with
  | '+' :: ds =>
    if !ds.isEmpty && ds.all Char.isDigit then some (digitsToNat ds : Int) else none
  | '-' :: ds =>
    if !ds.isEmpty && ds.all Char.isDigit then some (-(digitsToNat ds : Int)) else none
  | ds =>
    if !ds.isEmpty && ds.all Char.isDigit then some (digitsToNat ds : Int) else none

/-- acta.py get_archive_pages, page-count computation: page_count starts at 1;
if the page text contains the substring of, the text is split on of and the
first whitespace-separated token after the first of is parsed with int();
on success page_count = (total + 25 - 1) // 25 with the hardcoded page size
of 25; a ValueError or IndexError sets page_count = 15. -/
def acta_page_count (pagination_text : String) : Int :=
  match pySplitOnOf pagination_text with
  | _ :: part1 :: _ =>
    match firstToken (pyStrip part1) with
    | none => 15
    | some tok =>
      match pyParseInt tok with
      | none => 15
      | some total_issues => (total_issues + 25 - 1).fdiv 25
  | _ => 1

/-- acta.py get_archive_pages, URL-list part: page 1 is the archive URL
itself, page n for n greater than 1 appends the page number. -/
def acta_archive_page_urls (archive_url : String) (page_count : Int) : List String :=
  (List.range' 1 page_count.toNat).map
    (fun n => if n = 1 then archive_url else archive_url ++ toString n)

/-! ## Request executors (_make_request in rpmgf.py and acta.py) -/

/-- Outcome of one HTTP GET: a response with a status code, or a
requests.RequestException (connection failure or timeout). -/
inductive ReqOutcome where
  | status (code : Nat)
  | netFail
  deriving Repr, DecidableEq

/-- Observable network-loop events: a time.sleep of the given number of
seconds, or one HTTP GET. -/
inductive NetEvent where
  | sleep (seconds : Rat)
  | httpGet
  deriving Repr, DecidableEq

/-- Number of HTTP GETs in an event trace. -/
def countGets : List NetEvent → Nat
  | [] => 0
  | NetEvent.httpGet :: evs => countGets evs + 1
  | NetEvent.sleep _ :: evs => countGets evs

/-- requests Response.raise_for_status raises HTTPError exactly for 4xx and
5xx status codes. -/
def raisesForStatus (code : Nat) : Bool :=
  400 ≤ code && code < 600

/-- rpmgf.py _make_request loop body.  responses n is the outcome of the GET
issued in the loop iteration with Python loop variable attempt = n.  The
first argument rem counts the loop iterations that remain (retries - attempt);
the loop sleeps delay seconds, issues the GET, returns the response unless
raise_for_status raises, and on a caught RequestException returns None when
attempt = retries - 1 and otherwise continues. -/
def rpmgf_make_request_go (responses : Nat → ReqOutcome) (delay : Rat) (retries : Nat) :
    Nat → Nat → Option Nat × List NetEvent
  | 0, _ => (none, [])
  | rem + 1, attempt =>
    let evs := [NetEvent.sleep delay, NetEvent.httpGet]
    let onFail :=
      if attempt = retries - 1 then ((none : Option Nat), evs)
      else
        let r2 := rpmgf_make_request_go responses delay retries rem (attempt + 1)
        (r2.1, evs ++ r2.2)
    match responses attempt with
    | ReqOutcome.status code =>
      if raisesForStatus code then onFail else (some code, evs)
    | ReqOutcome.netFail => onFail

/-- rpmgf.py _make_request: for attempt in range(retries), starting at
attempt 0 with retries iterations available. -/
def rpmgf_make_request (responses : Nat → ReqOutcome) (delay : Rat) (retries : Nat) :
    Option Nat × List NetEvent :=
  rpmgf_make_request_go responses delay retries retries 0

/-- acta.py _make_request loop body.  The Python loop is
for attempt in range(retry_count, retry_attempts + 1); rem counts the
remaining iterations.  Each iteration issues the GET with no preceding sleep;
status 200 returns the response, status 404 returns None immediately, any
other status or RequestException sleeps (retry_attempts - attempt) * 2
seconds and continues when attempt is less than retry_attempts, and the loop
falls through to return None. -/
def acta_make_request_go (responses : Nat → ReqOutcome) (retry_attempts : Nat) :
    Nat → Nat → Option Nat × List NetEvent
  | 0, _ => (none, [])
  | rem + 1, attempt =>
    let onFail :=
      if attempt < retry_attempts then
        let wait : Rat := ((retry_attempts - attempt : Nat) : Rat) * 2
        let r2 := acta_make_request_go responses retry_attempts rem (attempt + 1)
        (r2.1, NetEvent.httpGet :: NetEvent.sleep wait :: r2.2)
      else ((none : Option Nat), [NetEvent.httpGet])
    match responses attempt with
    | ReqOutcome.status code =>
      if code = 200 then (some 200, [NetEvent.httpGet])
      else if code = 404 then (none, [NetEvent.httpGet])
      else onFail
    | ReqOutcome.netFail => onFail

/-- acta.py _make_request with its two parameters: retry_count (the default
call sites pass 3) and retry_attempts (the configured limit, default 3).
range(retry_count, retry_attempts + 1) has retry_attempts + 1 - retry_count
iterations. -/
def acta_make_request (responses : Nat → ReqOutcome) (retry_count retry_attempts : Nat) :
    Option Nat × List NetEvent :=
  acta_make_request_go responses retry_attempts (retry_attempts + 1 - retry_count) retry_count

/-- A request outcome that rpmgf.py treats as a failed attempt: an error
status (raise_for_status raises) or a network failure. -/
def isTransient : ReqOutcome → Bool
  | ReqOutcome.status code => raisesForStatus code
  | ReqOutcome.netFail => true

/-- Every HTTP GET in the trace is immediately preceded by a sleep of the
given length (the rate-limiting discipline the specification ascribes to the
request executor). -/
def sleepBeforeEveryGet (delay : Rat) (evs : List NetEvent) : Prop :=
  ∀ i, evs[i]? = some NetEvent.httpGet →
    ∃ j, i = j + 1 ∧ evs[j]? = some (NetEvent.sleep delay)

/-! ## URL resolution (urllib.parse.urljoin as the scripts use it) -/

/-- Whether the first list is an initial segment of the second. -/
def leadMatch : List Char → List Char → Bool
  | [], _ => true
  | _ :: _, [] => false
  | c :: cs, d :: ds => c == d && leadMatch cs ds

/-- Whether the string s begins with the string p. -/
def strBeginsWith (s p : String) : Bool :=
  leadMatch p.data s.data

/-- Whether a URL is absolute, that is, carries one of the http schemes the
scraped sites use. -/
def hasScheme (u : String) : Bool :=
  strBeginsWith u "http://" || strBeginsWith u "https://"

/-- Characters up to but excluding the first slash. -/
def takeUntilSlash : List Char → List Char
  | [] => []
  | '/' :: _ => []
  | c :: cs => c :: takeUntilSlash cs

/-- Scheme plus authority of an absolute http or https URL (everything up to
the path). -/
def originOf (base : String) : String :=
  if strBeginsWith base "http://" then
    String.mk ("http://".data ++ takeUntilSlash (base.data.drop 7))
  else if strBeginsWith base "https://" then
    String.mk ("https://".data ++ takeUntilSlash (base.data.drop 8))
  else base

/-- The prefix of the character list up to and including its last slash, or
none when it contains no slash. -/
def upToLastSlash : List Char → Option (List Char)
  | [] => none
  | c :: cs =>
    match upToLastSlash cs with
    | some rest => some (c :: rest)
    | none => if c == '/' then some ['/'] else none

/-- The base URL with its last path segment removed (kept through the last
slash); a base with an empty path gains a single slash. -/
def stripLastSegment (s : String) : String :=
  let oLen := (originOf s).data.length
  match upToLastSlash (s.data.drop oLen) with
  | some p => String.mk (s.data.take oLen ++ p)
  | none => String.mk (s.data ++ ['/'])

/-- Modelled from urllib.parse.urljoin restricted to the href shapes the
scraped sites produce: an absolute href replaces the base, a network-path or
root-relative href is resolved against the origin of the base URL, and a
relative href replaces the last path segment of the base URL.  Dot segments, queries and
fragments are not modelled. -/
def urljoin (base href : String) : String :=
  if href.data.isEmpty then base
  else if hasScheme href then href
  else if strBeginsWith href "/" then originOf base ++ href
  else stripLastSegment base ++ href

/-! ## rpmgf.py crawl (get_magazine_links, get_article_links, scrape_all_articles) -/

/-- Parse results rpmgf.py reads from a fetched archive or issue page:
the href attribute of each anchor of class title in document order (none for
an anchor without href), and, for each h3 of class title, the hrefs of the
anchors inside it. -/
structure RPage where
  titleAnchorHrefs : List (Option String)
  h3TitleAnchorHrefs : List (List (Option String))
  deriving Repr, DecidableEq

/-- The hrefs that pass the Python truthiness test if href (present and
non-empty), in document order. -/
def truthyHrefs (hrefs : List (Option String)) : List String :=
  hrefs.filterMap (fun h? => h?.bind (fun h => if h = "" then none else some h))

/-- rpmgf.py get_magazine_links over a frozen remote state: web u is the page
obtained when _make_request succeeds on u and none when every attempt failed.
Returns the magazine URL list (each truthy href resolved against the base
URL) together with the URLs passed to _make_request, in order. -/
def rpmgf_get_magazine_links (web : String → Option RPage) (base_url : String) :
    List String × List String :=
  match web base_url with
  | none => ([], [base_url])
  | some page =>
    ((truthyHrefs page.titleAnchorHrefs).map (fun href => urljoin base_url href),
     [base_url])

/-- One iteration of the rpmgf.py get_article_links loop: fetch the magazine
page, append every truthy article href (resolved against the magazine URL)
to the accumulated article list, and record the fetch. -/
def rpmgf_article_step (web : String → Option RPage)
    (acc : List String × List String) (url : String) : List String × List String :=
  match web url with
  | none => (acc.1, acc.2 ++ [url])
  | some page =>
    (acc.1 ++ ((page.h3TitleAnchorHrefs.flatMap truthyHrefs).map (fun href => urljoin url href)),
     acc.2 ++ [url])

/-- rpmgf.py get_article_links: visit every magazine URL returned by
get_magazine_links, in order, collecting article URLs; no deduplication is
performed.  Returns the article URL list and the full fetch log. -/
def rpmgf_get_article_links (web : String → Option RPage) (base_url : String) :
    List String × List String :=
  let m := rpmgf_get_magazine_links web base_url
  let s := m.1.foldl (rpmgf_article_step web) ([], [])
  (s.1, m.2 ++ s.2)

/-- rpmgf.py scrape_all_articles submits one extract_article_data task per
element of the article list (a dict keyed by future, so duplicates each get
their own task), and extract_article_data starts by fetching its URL: the
full fetch log of the run is the link-collection log followed by one fetch per
article-list entry. -/
def rpmgf_scrape_fetch_log (web : String → Option RPage) (base_url : String) :
    List String :=
  let g := rpmgf_get_article_links web base_url
  g.2 ++ g.1

/-- Number of times a URL occurs in a fetch log. -/
def countOccurrences (u : String) : List String → Nat
  | [] => 0
  | v :: rest => (if v = u then 1 else 0) + countOccurrences u rest

/-! ## acta.py crawl (extract_issue_links, get_all_issue_links) -/

/-- Parse results acta.py reads from a fetched archive page: its visible text
(soup.get_text(), scanned for pagination) and the hrefs of the anchors whose
href matches the issue-view pattern, in document order. -/
structure APage where
  text : String
  issueViewHrefs : List String
  deriving Repr, DecidableEq

/-- acta.py extract_issue_links, link part: resolve each matching href
against the configured base URL and append it unless already collected on
this page. -/
def acta_extract_issue_links (base_url : String) (page : APage) : List String :=
  page.issueViewHrefs.foldl
    (fun acc href =>
      let full := urljoin base_url href
      if full ∈ acc then acc else acc ++ [full]) []

/-- acta.py get_archive_pages over a frozen remote state: fetch the archive
URL, derive the page count from the text of the first page, and generate the
archive page URLs. -/
def acta_get_archive_pages (web : String → Option APage) (archive_url : String) :
    List String :=
  match web archive_url with
  | none => []
  | some page => acta_archive_page_urls archive_url (acta_page_count page.text)

/-- Insert a string into a list, keeping ascending order if the list was
sorted. -/
def insertSorted (x : String) : List String → List String
  | [] => [x]
  | y :: ys => if x ≤ y then x :: y :: ys else y :: insertSorted x ys

/-- Python sorted() on strings: ascending insertion sort. -/
def sortStrings (l : List String) : List String :=
  l.foldr insertSorted []

/-- acta.py get_all_issue_links: walk every archive page collecting issue
links, then collapse duplicates with list(set(...)) and sort the result.
The set conversion is modelled by dedup followed by the sort Python applies
to the arbitrary set order. -/
def acta_get_all_issue_links (web : String → Option APage)
    (archive_url base_url : String) : List String :=
  let archive_pages := acta_get_archive_pages web archive_url
  let all := archive_pages.foldl
    (fun acc p =>
      match web p with
      | none => acc
      | some page => acc ++ acta_extract_issue_links base_url page) []
  sortStrings all.dedup

/-! ## acta_medica_optimized.py fetch_revista_links -/

/-- Parse results acta_medica_optimized.py reads from an archive page: the
href attribute of each anchor of class title, none when absent. -/
structure OPage where
  titleHrefs : List (Option String)
  deriving Repr, DecidableEq

/-- The list comprehension revista bracket href: collects each href verbatim
in document order and raises KeyError at the first anchor without one. -/
def getHrefs : List (Option String) → Except Unit (List String)
  | [] => Except.ok []
  | none :: _ => Except.error ()
  | some h :: rest => (getHrefs rest).map (fun l => h :: l)

/-- acta_medica_optimized.py fetch_revista_links, extraction part: returns
the raw href of every anchor of class title, with no URL resolution. -/
def fetch_revista_links (page : OPage) : Except Unit (List String) :=
  getHrefs page.titleHrefs

/-! ## rpmgf_improved.py _extract_magazine_links_from_page -/

/-- rpmgf_improved.py _extract_magazine_links_from_page: for each anchor of
class title with a truthy href, append urljoin(self.base_url, href) — the
resolution base is the configured base_url, not the page being parsed. -/
def rpmgf_extract_magazine_links_from_page (base_url : String) (page : RPage) :
    List String :=
  page.titleAnchorHrefs.foldl
    (fun acc href? =>
      match href? with
      | none => acc
      | some href => if href = "" then acc else acc ++ [urljoin base_url href]) []

/-! ## rpmgf article extraction (extract_article_data in rpmgf.py and rpmgf_improved.py) -/

/-- A sibling element following an author-name span: its class attribute
(none when the element has no class) and its text. -/
structure SpanElem where
  classes : Option (List String)
  text : String
  deriving Repr, DecidableEq

/-- An author-name span: its text and its following siblings in document
order. -/
structure NameElem where
  text : String
  nextSiblings : List SpanElem
  deriving Repr, DecidableEq

/-- _find_affiliation_for_name: scan the following siblings; a sibling with
class affiliation yields its stripped text, a sibling with class name ends
the scan (next author), anything else is skipped; the fallback is the
placeholder. -/
def find_affiliation_for_name : List SpanElem → String
  | [] => "Não disponível"
  | s :: rest =>
    match s.classes with
    | none => find_affiliation_for_name rest
    | some cls =>
      if "affiliation" ∈ cls then pyStrip s.text
      else if "name" ∈ cls then "Não disponível"
      else find_affiliation_for_name rest

/-- _extract_authors_affiliations: one (stripped name, affiliation) pair per
span of class name, in document order. -/
def extract_authors_affiliations (names : List NameElem) : List (String × String) :=
  names.map (fun n => (pyStrip n.text, find_affiliation_for_name n.nextSiblings))

/-- The record type of the RPMGF scrapers (dataclass ArticleData). -/
structure ArticleData where
  revista : String
  issn : String
  volume : String
  numero : String
  submissao : String
  publicado : String
  titulo : String
  seccao : String
  doi : String
  autor : String
  afiliacao : String
  citacao : String
  url : String
  deriving Repr, DecidableEq

/-- Python x or d for x an optional string: None and the empty string are
falsy and yield the default. -/
def pyOr (x : Option String) (d : String) : String :=
  match x with
  | none => d
  | some s => if s = "" then d else s

/-- Python s or d for a plain string s. -/
def pyOrS (s d : String) : String :=
  if s = "" then d else s

/-- Parse results rpmgf extract_article_data reads from an article page: the
optional outputs of _safe_extract and _safe_extract_meta for each metadata
field, the optional DOI link, and the author-name spans. -/
structure RArticlePage where
  revista : Option String
  issn : Option String
  volume : Option String
  numero : Option String
  submissao : Option String
  publicado : Option String
  titulo : Option String
  seccao : Option String
  citacao : Option String
  doi : Option String
  nameElems : List NameElem
  deriving Repr, DecidableEq

/-- The ArticleData record rpmgf extract_article_data builds for one
(author, affiliation) pair: every metadata field falls back to its fixed
placeholder when the page value is missing or empty. -/
def rpmgf_mk_record (page : RArticlePage) (article_url autor afiliacao : String) :
    ArticleData :=
  { revista := pyOr page.revista "Não identificado"
    issn := pyOr page.issn "Não disponível"
    volume := pyOr page.volume "Não disponível"
    numero := pyOr page.numero "Não disponível"
    submissao := pyOr page.submissao "Não disponível"
    publicado := pyOr page.publicado "Não disponível"
    titulo := pyOr page.titulo "Sem título"
    seccao := pyOr page.seccao "Não disponível"
    doi := pyOr page.doi "Não fornecido"
    autor := pyOrS autor "Não disponível"
    afiliacao := pyOrS afiliacao "Não disponível"
    citacao := pyOr page.citacao "Não disponível"
    url := article_url }

/-- The record list extract_article_data builds: one record per
(author, affiliation) pair. -/
def rpmgf_records_of (page : RArticlePage) (article_url : String) : List ArticleData :=
  (extract_authors_affiliations page.nameElems).map
    (fun ad => rpmgf_mk_record page article_url ad.1 ad.2)

/-- rpmgf extract_article_data: none when the fetch failed, none when the
record list is empty (articles_data if articles_data else None), otherwise
the record list. -/
def rpmgf_extract_article_data (web : String → Option RArticlePage)
    (article_url : String) : Option (List ArticleData) :=
  match web article_url with
  | none => none
  | some page =>
    let articles := rpmgf_records_of page article_url
    if articles.isEmpty then none else some articles

/-! ## acta.py extract_article_data -/

/-- The per-article information extract_article_links_from_issue hands to
extract_article_data (article_info with its issue_info flattened). -/
structure ArticleInfo where
  article_url : String
  title : String
  authors : String
  pages : String
  volume : String
  numero : String
  year : String
  period : String
  deriving Repr, DecidableEq

/-- The record type of acta.py (dataclass AMPArticleData); every field
defaults to the empty string. -/
structure AMPArticleData where
  revista : String := ""
  issn : String := ""
  volume : String := ""
  numero : String := ""
  ano : String := ""
  periodo : String := ""
  titulo : String := ""
  autores : String := ""
  afiliacoes : String := ""
  doi : String := ""
  resumo : String := ""
  palavras_chave : String := ""
  secao : String := ""
  paginas : String := ""
  data_publicacao : String := ""
  url_artigo : String := ""
  url_pdf : String := ""
  licenca : String := ""
  formatos_citacao : String := ""
  deriving Repr, DecidableEq

/-- Parse results acta.py extract_article_data reads from an article page:
the optional value of each regex- or selector-derived detail field. -/
structure ADetailPage where
  doi : Option String
  resumo : Option String
  palavras_chave : Option String
  secao : Option String
  data_publicacao : Option String
  pdfHref : Option String
  licenca : Option String
  formatos_citacao : Option String
  deriving Repr, DecidableEq

/-- The base URL acta.py is constructed with. -/
def acta_base_url : String :=
  "https://www.actamedicaportuguesa.com/revista/index.php/amp/"

/-- acta.py extract_article_data: when the fetch of the article page fails it
still returns one record built from the issue-page information (the code
comment reads Return basic info if detailed extraction fails); on success it
fills the detail fields, leaving a missing detail as the empty-string
default. -/
def acta_extract_article_data (web : String → Option ADetailPage)
    (info : ArticleInfo) : AMPArticleData :=
  match web info.article_url with
  | none =>
    { titulo := info.title
      autores := info.authors
      volume := info.volume
      numero := info.numero
      ano := info.year
      periodo := info.period
      paginas := info.pages
      url_artigo := info.article_url }
  | some page =>
    { revista := "Acta Médica Portuguesa"
      issn := "2182-5173"
      volume := info.volume
      numero := info.numero
      ano := info.year
      periodo := info.period
      titulo := info.title
      autores := info.authors
      paginas := info.pages
      url_artigo := info.article_url
      doi := page.doi.getD ""
      resumo := page.resumo.getD ""
      palavras_chave := page.palavras_chave.getD ""
      secao := page.secao.getD ""
      data_publicacao := page.data_publicacao.getD ""
      url_pdf := (page.pdfHref.map (fun h => urljoin acta_base_url h)).getD ""
      licenca := page.licenca.getD ""
      formatos_citacao := page.formatos_citacao.getD "" }

/-- acta.py scrape_all_articles appends the record of every article_info
unconditionally: the records contributed by a list of articles. -/
def acta_records_for (web : String → Option ADetailPage)
    (infos : List ArticleInfo) : List AMPArticleData :=
  infos.map (acta_extract_article_data web)

/-! ## Concrete inputs used by counterexamples and witnesses -/

/-- A frozen remote state whose archive page lists the same magazine URL
twice (as overlapping listing pages would). -/
def c4web : String → Option RPage := fun u =>
  if u = "https://x/archive" then
    some ⟨[some "https://x/m", some "https://x/m"], []⟩
  else if u = "https://x/m" then some ⟨[], []⟩
  else none

/-- An article_info for a leaf whose fetch will fail. -/
def c5info : ArticleInfo :=
  ⟨"https://x/a", "Titulo", "Autores", "1-2", "38", "11", "2025", ""⟩

/-- An article page with a single author and every metadata field missing. -/
def c9page : RArticlePage :=
  ⟨none, none, none, none, none, none, none, none, none, none,
   [⟨"Ana Silva", [⟨some ["affiliation"], "USL Lisboa"⟩]⟩]⟩

/-- A frozen remote state serving c9page at one article URL. -/
def c9web : String → Option RArticlePage := fun u =>
  if u = "https://x/art" then some c9page else none

/-- An article page with one author and no affiliation sibling. -/
def c10page : RArticlePage :=
  ⟨none, none, none, none, none, none, none, none, none, none, [⟨"Rui Costa", []⟩]⟩

/-- A frozen remote state serving c10page at one article URL. -/
def c10web : String → Option RArticlePage := fun u =>
  if u = "https://x/art10" then some c10page else none

/-! ## Helper lemmas -/

/-- Ceiling-division characterization: (t + p - 1) / p is the least k with
t ≤ p * k. -/
theorem ceil_div_le_iff (t p k : Nat) (hp : 0 < p) :
    (t + p - 1) / p ≤ k ↔ t ≤ p * k := by
  rw [Nat.div_le_iff_le_mul_add_pred hp]
  set m := p * k with hm
  omega

/-- Python floor division of the nonnegative ceiling numerator agrees with
Nat division. -/
theorem fdiv_ceil_nat (t p : Nat) (hp : 0 < p) :
    ((t : Int) + (p : Int) - 1).fdiv (p : Int) = (((t + p - 1) / p : Nat) : Int) := by
  have h1 : (t : Int) + (p : Int) - 1 = ((t + p - 1 : Nat) : Int) := by omega
  rw [h1, Int.fdiv_eq_ediv _ (by positivity), ← Int.natCast_div]

/-! ## C1: pagination math -/

/-- C1 counterexample: on a first listing page reading 1-50 of 169 the claim
prescribes pageCount = ceil(169 / (50 - 1 + 1)) = 4, but acta.py
get_archive_pages divides by its hardcoded page size 25 and returns 7. -/
theorem C1_counterexample :
    searchPagination ("1-50 of 169").data = some (1, 50, 169) ∧
    acta_page_count "1-50 of 169" = 7 ∧
    ((169 + (50 - 1 + 1) - 1) / (50 - 1 + 1) : Nat) = 4 ∧
    (7 : Int) ≠ (4 : Int) :=
  ⟨by decide, by decide, by decide, by decide⟩

/-- C1 amended: for every triple (start, end, total) matched by the listing
pattern on the first page, rpmgf_improved.py _detect_pagination computes
pageSize = end - start + 1 and pageCount = ceil(total / pageSize), the
ceiling being characterized as the least k with total ≤ pageSize * k; acta.py
get_archive_pages instead always divides by 25, and on the particular input
1-25 of 355 both return pageCount = 15. -/
theorem C1_pagination_math (text : String) (hasNextLink : Bool) (s e t k : Nat)
    (hm : searchPagination text.data = some (s, e, t)) (hse : s ≤ e) :
    rpmgf_detect_pagination text hasNextLink =
      some ⟨(t : Int), ((e - s + 1 : Nat) : Int),
            (((t + (e - s + 1) - 1) / (e - s + 1) : Nat) : Int)⟩ ∧
    ((t + (e - s + 1) - 1) / (e - s + 1) ≤ k ↔ t ≤ (e - s + 1) * k) ∧
    acta_page_count "1-25 of 355" = 15 ∧
    rpmgf_total_pages "1-25 of 355" false = 15 := by
  have hp : 0 < e - s + 1 := by omega
  have hcast : (e : Int) - (s : Int) + 1 = ((e - s + 1 : Nat) : Int) := by omega
  refine ⟨?_, ceil_div_le_iff t (e - s + 1) k hp, by decide, by decide⟩
  rw [rpmgf_detect_pagination, hm]
  simp only [hcast]
  rw [if_neg (by exact_mod_cast Nat.pos_iff_ne_zero.mp hp), fdiv_ceil_nat t (e - s + 1) hp]

/-- C1 witness: the theorem applied to the concrete first-page text
1-25 of 355 with k = 15. -/
theorem C1_pagination_math_witness :
    rpmgf_detect_pagination "1-25 of 355" false =
      some ⟨(355 : Int), ((25 - 1 + 1 : Nat) : Int),
            (((355 + (25 - 1 + 1) - 1) / (25 - 1 + 1) : Nat) : Int)⟩ ∧
    ((355 + (25 - 1 + 1) - 1) / (25 - 1 + 1) ≤ 15 ↔ 355 ≤ (25 - 1 + 1) * 15) ∧
    acta_page_count "1-25 of 355" = 15 ∧
    rpmgf_total_pages "1-25 of 355" false = 15 :=
  C1_pagination_math "1-25 of 355" false 1 25 355 15 (by decide) (by decide)

/-! ## C6: graceful degradation of pagination discovery -/

/-- C6 counterexample: the page text Table of Contents contains neither the
X-Y of Z pattern nor a next-page control, yet acta.py get_archive_pages
returns the fallback page count 15, not 1, because the text contains the
substring of with no parseable number after it. -/
theorem C6_counterexample :
    searchPagination ("Table of Contents").data = none ∧
    acta_page_count "Table of Contents" = 15 ∧
    (15 : Int) ≠ 1 :=
  ⟨by decide, by decide, by decide⟩

/-- C6 amended: rpmgf_improved.py returns pageCount = 1 (without raising)
whenever the pagination pattern is absent and the page has no next-page
link; acta.py returns 1 only when the page text contains no occurrence of
the substring of at all. -/
theorem C6_graceful_degradation :
    (∀ text : String, searchPagination text.data = none →
      rpmgf_total_pages text false = 1) ∧
    (∀ text : String, (pySplitOnOf text).length ≤ 1 → acta_page_count text = 1) := by
  constructor
  · intro text h
    simp [rpmgf_total_pages, rpmgf_detect_pagination, h]
  · intro text h
    rw [acta_page_count]
    rcases hps : pySplitOnOf text with _ | ⟨a, _ | ⟨b, rest⟩⟩
    · rfl
    · rfl
    · rw [hps] at h; simp at h

/-- C6 witness: the theorem applied to a page text with no pagination
pattern, no next-page link, and no occurrence of of. -/
theorem C6_graceful_degradation_witness :
    rpmgf_total_pages "hello" false = 1 ∧ acta_page_count "hello" = 1 :=
  ⟨C6_graceful_degradation.1 "hello" (by decide),
   C6_graceful_degradation.2 "hello" (by decide)⟩

/-! ## Request-executor lemmas -/

/-- HTTP-GET count distributes over trace concatenation. -/
theorem countGets_append (a b : List NetEvent) :
    countGets (a ++ b) = countGets a + countGets b := by
  induction a with
  | nil => simp [countGets]
  | cons e rest ih =>
    cases e with
    | sleep s => simp [countGets, ih]
    | httpGet => rw [List.cons_append, countGets, countGets, ih]; omega

/-- A two-event sleep-then-GET block contains one GET. -/
theorem countGets_sg (d : Rat) : countGets [NetEvent.sleep d, NetEvent.httpGet] = 1 := rfl

/-- When every attempt fails, the rpmgf.py loop runs all remaining
iterations, issues one GET per iteration, and returns None. -/
theorem rpmgf_transient_go (responses : Nat → ReqOutcome) (delay : Rat) (retries : Nat)
    (h : ∀ n, isTransient (responses n) = true) :
    ∀ rem attempt, attempt + rem = retries →
      (rpmgf_make_request_go responses delay retries rem attempt).1 = none ∧
      countGets (rpmgf_make_request_go responses delay retries rem attempt).2 = rem := by
  intro rem
  induction rem with
  | zero => intro attempt _; exact ⟨rfl, rfl⟩
  | succ r ih =>
    intro attempt hsum
    have htr := h attempt
    by_cases hlast : attempt = retries - 1
    · have hr0 : r = 0 := by omega
      subst hr0
      subst hlast
      cases hresp : responses (retries - 1) with
      | status code =>
        have hraise : raisesForStatus code = true := by
          rw [hresp, isTransient] at htr; exact htr
        have e1 : rpmgf_make_request_go responses delay retries 1 (retries - 1)
            = (none, [NetEvent.sleep delay, NetEvent.httpGet]) := by
          simp [rpmgf_make_request_go, hresp, hraise]
        rw [e1]
        exact ⟨rfl, rfl⟩
      | netFail =>
        have e1 : rpmgf_make_request_go responses delay retries 1 (retries - 1)
            = (none, [NetEvent.sleep delay, NetEvent.httpGet]) := by
          simp [rpmgf_make_request_go, hresp]
        rw [e1]
        exact ⟨rfl, rfl⟩
    · have hrec := ih (attempt + 1) (by omega)
      cases hresp : responses attempt with
      | status code =>
        have hraise : raisesForStatus code = true := by
          rw [hresp, isTransient] at htr; exact htr
        have e1 : rpmgf_make_request_go responses delay retries (r + 1) attempt
            = ((rpmgf_make_request_go responses delay retries r (attempt + 1)).1,
               [NetEvent.sleep delay, NetEvent.httpGet] ++
                 (rpmgf_make_request_go responses delay retries r (attempt + 1)).2) := by
          simp [rpmgf_make_request_go, hresp, hraise, hlast]
        rw [e1]
        refine ⟨hrec.1, ?_⟩
        rw [countGets_append, hrec.2, countGets_sg]
        omega
      | netFail =>
        have e1 : rpmgf_make_request_go responses delay retries (r + 1) attempt
            = ((rpmgf_make_request_go responses delay retries r (attempt + 1)).1,
               [NetEvent.sleep delay, NetEvent.httpGet] ++
                 (rpmgf_make_request_go responses delay retries r (attempt + 1)).2) := by
          simp [rpmgf_make_request_go, hresp, hlast]
        rw [e1]
        refine ⟨hrec.1, ?_⟩
        rw [countGets_append, hrec.2, countGets_sg]
        omega

/-! ## C2: retry exhaustion -/

/-- C2 counterexample: acta.py _make_request called with its default
arguments (retry_count = 3, retry_attempts = 3) on a URL answering 500 to
every attempt performs exactly ONE GET before returning None — the loop
range(retry_count, retry_attempts + 1) has a single element — not the 3
invocations the claim states. -/
theorem C2_counterexample :
    countGets (acta_make_request (fun _ => ReqOutcome.status 500) 3 3).2 = 1 ∧
    (acta_make_request (fun _ => ReqOutcome.status 500) 3 3).1 = none ∧
    (1 : Nat) ≠ 3 :=
  ⟨rfl, rfl, by decide⟩

/-- C2 amended: for every response function whose every attempt is
transient, rpmgf.py _make_request with 3 retries performs exactly 3 HTTP
requests and returns None, never a success; acta.py _make_request at its
default call performs exactly 1 HTTP request and returns None — it likewise
never returns a success, but the exactly-3-invocations part holds only for
rpmgf.py. -/
theorem C2_retry_exhaustion (responses : Nat → ReqOutcome) (delay : Rat)
    (htrans : ∀ n, isTransient (responses n) = true) :
    (rpmgf_make_request responses delay 3).1 = none ∧
    countGets (rpmgf_make_request responses delay 3).2 = 3 ∧
    acta_make_request responses 3 3 = (none, [NetEvent.httpGet]) := by
  refine ⟨(rpmgf_transient_go responses delay 3 htrans 3 0 rfl).1,
          (rpmgf_transient_go responses delay 3 htrans 3 0 rfl).2, ?_⟩
  have h3 := htrans 3
  rw [acta_make_request]
  show acta_make_request_go responses 3 1 3 = (none, [NetEvent.httpGet])
  cases hresp : responses 3 with
  | netFail => simp [acta_make_request_go, hresp]
  | status code =>
    rw [hresp, isTransient] at h3
    have hcode : ¬ code = 200 := by
      intro h
      subst h
      simp [raisesForStatus] at h3
    by_cases h404 : code = 404
    · simp [acta_make_request_go, hresp, hcode, h404]
    · simp [acta_make_request_go, hresp, hcode, h404]

/-- C2 witness: the theorem applied to the all-500 response function. -/
theorem C2_retry_exhaustion_witness :
    (rpmgf_make_request (fun _ => ReqOutcome.status 500) 1 3).1 = none ∧
    countGets (rpmgf_make_request (fun _ => ReqOutcome.status 500) 1 3).2 = 3 ∧
    acta_make_request (fun _ => ReqOutcome.status 500) 3 3 =
      (none, [NetEvent.httpGet]) :=
  C2_retry_exhaustion (fun _ => ReqOutcome.status 500) 1 (fun _ => rfl)

/-! ## C3: 404 handling -/

/-- C3 counterexample: in rpmgf.py a URL answering 404 to every attempt is
retried — raise_for_status raises on 404 like on any other error status —
so 3 GETs are performed, not the claimed single terminal attempt. -/
theorem C3_counterexample :
    countGets (rpmgf_make_request (fun _ => ReqOutcome.status 404) 1 3).2 = 3 ∧
    (rpmgf_make_request (fun _ => ReqOutcome.status 404) 1 3).1 = none ∧
    (3 : Nat) ≠ 1 :=
  ⟨rfl, rfl, by decide⟩

/-- C3 amended: acta.py returns None immediately after the first attempt on
a 404, with exactly one GET and no retry; rpmgf.py treats 404 like every
other error status and retries it until the attempt limit (3 GETs, then
None). -/
theorem C3_notfound_behavior (responses : Nat → ReqOutcome) (delay : Rat)
    (rc ra : Nat) (h404 : ∀ n, responses n = ReqOutcome.status 404) (hrc : rc ≤ ra) :
    acta_make_request responses rc ra = (none, [NetEvent.httpGet]) ∧
    (rpmgf_make_request responses delay 3).1 = none ∧
    countGets (rpmgf_make_request responses delay 3).2 = 3 := by
  have htrans : ∀ n, isTransient (responses n) = true := by
    intro n; rw [h404 n]; rfl
  refine ⟨?_, (rpmgf_transient_go responses delay 3 htrans 3 0 rfl).1,
          (rpmgf_transient_go responses delay 3 htrans 3 0 rfl).2⟩
  have hrem : ra + 1 - rc = (ra - rc) + 1 := by omega
  rw [acta_make_request, hrem]
  simp [acta_make_request_go, h404 rc]

/-- C3 witness: the theorem applied to the all-404 response function at the
default parameters. -/
theorem C3_notfound_behavior_witness :
    acta_make_request (fun _ => ReqOutcome.status 404) 3 3 =
      (none, [NetEvent.httpGet]) ∧
    (rpmgf_make_request (fun _ => ReqOutcome.status 404) 1 3).1 = none ∧
    countGets (rpmgf_make_request (fun _ => ReqOutcome.status 404) 1 3).2 = 3 :=
  C3_notfound_behavior (fun _ => ReqOutcome.status 404) 1 3 3 (fun _ => rfl)
    (by decide)

/-! ## C7: rate limiting -/

/-- The empty trace vacuously satisfies the sleep-before-every-GET
discipline. -/
theorem sleepBeforeEveryGet_nil (delay : Rat) :
    sleepBeforeEveryGet delay ([] : List NetEvent) := by
  intro i hi
  simp at hi

/-- Prepending a sleep-then-GET block preserves the sleep-before-every-GET
discipline. -/
theorem sleepBeforeEveryGet_block (delay : Rat) (t : List NetEvent)
    (h : sleepBeforeEveryGet delay t) :
    sleepBeforeEveryGet delay (NetEvent.sleep delay :: NetEvent.httpGet :: t) := by
  intro i hi
  match i with
  | 0 => simp at hi
  | 1 => exact ⟨0, rfl, rfl⟩
  | n + 2 =>
    rw [List.getElem?_cons_succ, List.getElem?_cons_succ] at hi
    obtain ⟨j, hj, hsleep⟩ := h n hi
    refine ⟨j + 2, by omega, ?_⟩
    rw [List.getElem?_cons_succ, List.getElem?_cons_succ]
    exact hsleep

/-- Every trace of the rpmgf.py request loop sleeps the configured delay
immediately before each GET. -/
theorem rpmgf_go_sleepBefore (responses : Nat → ReqOutcome) (delay : Rat)
    (retries : Nat) :
    ∀ rem attempt,
      sleepBeforeEveryGet delay
        (rpmgf_make_request_go responses delay retries rem attempt).2 := by
  intro rem
  induction rem with
  | zero => intro attempt; exact sleepBeforeEveryGet_nil delay
  | succ r ih =>
    intro attempt
    cases hresp : responses attempt with
    | status code =>
      by_cases hraise : raisesForStatus code = true
      · by_cases hlast : attempt = retries - 1
        · have e1 : (rpmgf_make_request_go responses delay retries (r + 1) attempt).2
              = [NetEvent.sleep delay, NetEvent.httpGet] := by
            rw [hlast] at hresp
            simp [rpmgf_make_request_go, hresp, hraise, hlast]
          rw [e1]
          exact sleepBeforeEveryGet_block delay [] (sleepBeforeEveryGet_nil delay)
        · have e1 : (rpmgf_make_request_go responses delay retries (r + 1) attempt).2
              = NetEvent.sleep delay :: NetEvent.httpGet ::
                  (rpmgf_make_request_go responses delay retries r (attempt + 1)).2 := by
            simp [rpmgf_make_request_go, hresp, hraise, hlast]
          rw [e1]
          exact sleepBeforeEveryGet_block delay _ (ih (attempt + 1))
      · have e1 : (rpmgf_make_request_go responses delay retries (r + 1) attempt).2
            = [NetEvent.sleep delay, NetEvent.httpGet] := by
          simp [rpmgf_make_request_go, hresp, hraise]
        rw [e1]
        exact sleepBeforeEveryGet_block delay [] (sleepBeforeEveryGet_nil delay)
    | netFail =>
      by_cases hlast : attempt = retries - 1
      · have e1 : (rpmgf_make_request_go responses delay retries (r + 1) attempt).2
            = [NetEvent.sleep delay, NetEvent.httpGet] := by
          rw [hlast] at hresp
          simp [rpmgf_make_request_go, hresp, hlast]
        rw [e1]
        exact sleepBeforeEveryGet_block delay [] (sleepBeforeEveryGet_nil delay)
      · have e1 : (rpmgf_make_request_go responses delay retries (r + 1) attempt).2
            = NetEvent.sleep delay :: NetEvent.httpGet ::
                (rpmgf_make_request_go responses delay retries r (attempt + 1)).2 := by
          simp [rpmgf_make_request_go, hresp, hlast]
        rw [e1]
        exact sleepBeforeEveryGet_block delay _ (ih (attempt + 1))

/-- Every non-degenerate acta.py request loop opens with a GET: no delay of
any kind precedes the first attempt. -/
theorem acta_first_event_is_get (responses : Nat → ReqOutcome) (rc ra : Nat)
    (h : rc ≤ ra) :
    ((acta_make_request responses rc ra).2).head? = some NetEvent.httpGet := by
  have hrem : ra + 1 - rc = (ra - rc) + 1 := by omega
  rw [acta_make_request, hrem]
  rw [acta_make_request_go]
  cases responses rc with
  | status code =>
    by_cases h200 : code = 200
    · simp [h200]
    · by_cases h404 : code = 404
      · simp [h200, h404]
      · by_cases hlt : rc < ra
        · simp [h200, h404, hlt]
        · simp [h200, h404, hlt]
  | netFail =>
    by_cases hlt : rc < ra
    · simp [hlt]
    · simp [hlt]

/-- C7 counterexample: acta.py issues its first (and, at the defaults, only)
attempt with no preceding wait — the trace of a defaulted call on a URL
answering 500 is a single GET event, violating the sleep-before-every-GET
discipline for any delay, here the example value 1 of the specification. -/
theorem C7_counterexample :
    (acta_make_request (fun _ => ReqOutcome.status 500) 3 3).2 = [NetEvent.httpGet] ∧
    ¬ sleepBeforeEveryGet 1 ((acta_make_request (fun _ => ReqOutcome.status 500) 3 3).2) := by
  have htr : (acta_make_request (fun _ => ReqOutcome.status 500) 3 3).2
      = [NetEvent.httpGet] := rfl
  refine ⟨htr, ?_⟩
  rw [htr]
  intro hsb
  obtain ⟨j, hj, _⟩ := hsb 0 rfl
  omega

/-- C7 amended: rpmgf.py _make_request sleeps the configured delay
immediately before every attempt, including the first; acta.py _make_request
never sleeps before an attempt — whenever the loop runs, its first event is
a GET (its only sleeps are the backoff between failed attempts). -/
theorem C7_rate_limiting :
    (∀ (responses : Nat → ReqOutcome) (delay : Rat) (retries : Nat),
      sleepBeforeEveryGet delay (rpmgf_make_request responses delay retries).2) ∧
    (∀ (responses : Nat → ReqOutcome) (rc ra : Nat), rc ≤ ra →
      ((acta_make_request responses rc ra).2).head? = some NetEvent.httpGet) := by
  constructor
  · intro responses delay retries
    exact rpmgf_go_sleepBefore responses delay retries retries 0
  · intro responses rc ra h
    exact acta_first_event_is_get responses rc ra h

/-- C7 witness: the theorem applied to concrete response functions, with the
acta hypothesis discharged at the default parameters. -/
theorem C7_rate_limiting_witness :
    sleepBeforeEveryGet 1 (rpmgf_make_request (fun _ => ReqOutcome.netFail) 1 3).2 ∧
    ((acta_make_request (fun _ => ReqOutcome.status 500) 3 3).2).head?
      = some NetEvent.httpGet :=
  ⟨C7_rate_limiting.1 (fun _ => ReqOutcome.netFail) 1 3,
   C7_rate_limiting.2 (fun _ => ReqOutcome.status 500) 3 3 (by decide)⟩

/-! ## C4: deduplication -/

/-- Membership in an insertion is membership in the inserted element or the
list. -/
theorem mem_insertSorted (x a : String) (l : List String) :
    a ∈ insertSorted x l ↔ a = x ∨ a ∈ l := by
  induction l with
  | nil => simp [insertSorted]
  | cons y ys ih =>
    by_cases hxy : x ≤ y
    · simp [insertSorted, hxy]
    · simp [insertSorted, hxy, ih]
      tauto

/-- Inserting a fresh element preserves freedom from duplicates. -/
theorem nodup_insertSorted (x : String) (l : List String) (hx : x ∉ l)
    (hl : l.Nodup) : (insertSorted x l).Nodup := by
  induction l with
  | nil => simp [insertSorted]
  | cons y ys ih =>
    rw [List.nodup_cons] at hl
    by_cases hxy : x ≤ y
    · rw [insertSorted, if_pos hxy]
      exact List.nodup_cons.mpr ⟨hx, List.nodup_cons.mpr hl⟩
    · rw [insertSorted, if_neg hxy]
      refine List.nodup_cons.mpr ⟨?_, ih (fun hm => hx (List.mem_cons_of_mem _ hm)) hl.2⟩
      rw [mem_insertSorted]
      rintro (rfl | hmem)
      · exact hx (List.mem_cons_self _ _)
      · exact hl.1 hmem

/-- Sorting does not change membership. -/
theorem mem_sortStrings (a : String) (l : List String) :
    a ∈ sortStrings l ↔ a ∈ l := by
  induction l with
  | nil => simp [sortStrings]
  | cons x xs ih =>
    have hs : sortStrings (x :: xs) = insertSorted x (sortStrings xs) := rfl
    rw [hs, mem_insertSorted, ih]
    simp

/-- Sorting a duplicate-free list yields a duplicate-free list. -/
theorem sortStrings_nodup (l : List String) (h : l.Nodup) :
    (sortStrings l).Nodup := by
  induction l with
  | nil => exact h
  | cons x xs ih =>
    rw [List.nodup_cons] at h
    have hs : sortStrings (x :: xs) = insertSorted x (sortStrings xs) := rfl
    rw [hs]
    exact nodup_insertSorted x _ (fun hm => h.1 ((mem_sortStrings x xs).mp hm)) (ih h.2)

/-- C4 counterexample: rpmgf.py performs no deduplication — on a frozen
remote state whose archive page lists the same magazine URL twice, the run
fetch log contains two fetches of that container URL. -/
theorem C4_counterexample :
    countOccurrences "https://x/m" (rpmgf_scrape_fetch_log c4web "https://x/archive") = 2 :=
  rfl

/-- C4 amended: acta.py deduplicates issue URLs — get_all_issue_links always
returns a duplicate-free list, so each issue is fetched at most once —
whereas rpmgf.py schedules one fetch per occurrence: its run fetch log is
exactly the archive URL followed by the magazine list and the article list
verbatim, duplicates included. -/
theorem C4_dedup_behavior :
    (∀ (web : String → Option APage) (archive_url base_url : String),
      (acta_get_all_issue_links web archive_url base_url).Nodup) ∧
    (∀ (web : String → Option RPage) (base_url : String),
      rpmgf_scrape_fetch_log web base_url =
        base_url :: ((rpmgf_get_magazine_links web base_url).1 ++
          (rpmgf_get_article_links web base_url).1)) := by
  constructor
  · intro web a b
    rw [acta_get_all_issue_links]
    exact sortStrings_nodup _ (List.nodup_dedup _)
  · intro web base
    have hlog : ∀ (l : List String) (acc : List String × List String),
        (l.foldl (rpmgf_article_step web) acc).2 = acc.2 ++ l := by
      intro l
      induction l with
      | nil => intro acc; simp
      | cons u us ih =>
        intro acc
        rw [List.foldl_cons, ih]
        cases h : web u <;> simp [rpmgf_article_step, h]
    rw [rpmgf_scrape_fetch_log, rpmgf_get_article_links]
    cases h : web base with
    | none =>
      simp [rpmgf_get_magazine_links, h, hlog]
    | some page =>
      simp [rpmgf_get_magazine_links, h, hlog]

/-! ## C8: link extraction -/

/-- C8 counterexample: acta_medica_optimized.py fetch_revista_links returns
the discovered href verbatim — a relative href such as issue/view/1 comes
back unresolved and non-absolute, while resolving it against the page URL
would have produced an absolute URL. -/
theorem C8_counterexample :
    fetch_revista_links ⟨[some "issue/view/1"]⟩ = Except.ok ["issue/view/1"] ∧
    hasScheme "issue/view/1" = false ∧
    hasScheme (urljoin acta_base_url "issue/view/1") = true :=
  ⟨rfl, rfl, rfl⟩

/-- C8 amended: rpmgf_improved.py _extract_magazine_links_from_page yields
one link per truthy href in document order, resolved with urljoin against
the configured base_url of the scraper (not the own URL of the page), and an empty
list on zero matches; acta_medica_optimized.py fetch_revista_links yields
the hrefs verbatim in document order with no resolution, and an empty list
on zero matches. -/
theorem C8_link_extraction :
    (∀ (base_url : String) (page : RPage),
      rpmgf_extract_magazine_links_from_page base_url page =
        (truthyHrefs page.titleAnchorHrefs).map (fun h => urljoin base_url h)) ∧
    (∀ base_url : String,
      rpmgf_extract_magazine_links_from_page base_url ⟨[], []⟩ = []) ∧
    (∀ hrefs : List String, fetch_revista_links ⟨hrefs.map some⟩ = Except.ok hrefs) ∧
    fetch_revista_links ⟨[]⟩ = Except.ok [] := by
  have hfold : ∀ (base : String) (l : List (Option String)) (acc : List String),
      l.foldl (fun acc href? =>
        match href? with
        | none => acc
        | some href => if href = "" then acc else acc ++ [urljoin base href]) acc =
      acc ++ (truthyHrefs l).map (fun h => urljoin base h) := by
    intro base l
    induction l with
    | nil => intro acc; simp [truthyHrefs]
    | cons h? rest ih =>
      intro acc
      cases h? with
      | none => simp [truthyHrefs, List.filterMap_cons, ih]
      | some h =>
        by_cases hh : h = ""
        · simp [truthyHrefs, List.filterMap_cons, hh, ih]
        · simp [truthyHrefs, List.filterMap_cons, hh, ih]
  have hok : ∀ hrefs : List String, getHrefs (hrefs.map some) = Except.ok hrefs := by
    intro hrefs
    induction hrefs with
    | nil => rfl
    | cons h rest ih => simp [getHrefs, ih, Except.map]
  refine ⟨?_, ?_, ?_, rfl⟩
  · intro base page
    rw [rpmgf_extract_magazine_links_from_page, hfold]
    rfl
  · intro base
    rfl
  · intro hrefs
    rw [fetch_revista_links, hok]

/-! ## C5: records come from successful fetches -/

/-- C5 counterexample: under a frozen remote state where every article fetch
fails, acta.py still contributes one Record per article, carrying the failed
URL of the failed leaf as its sourceUrl — the claim demands zero Records from a failed
leaf. -/
theorem C5_counterexample :
    (fun _ : String => (none : Option ADetailPage)) "https://x/a" = none ∧
    (acta_records_for (fun _ => none) [c5info]).length = 1 ∧
    (acta_extract_article_data (fun _ => none) c5info).url_artigo = "https://x/a" :=
  ⟨rfl, rfl, rfl⟩

/-- C5 amended: in rpmgf.py a leaf whose fetch failed contributes zero
records (extract_article_data returns None); acta.py instead deliberately
returns one fallback record built from the issue-page information, whose
url_artigo is the URL of the failed leaf — so only the RPMGF scrapers
guarantee that the sourceUrl of every record refers to a successfully
fetched leaf. -/
theorem C5_success_records (rweb : String → Option RArticlePage)
    (aweb : String → Option ADetailPage) (url : String) (info : ArticleInfo)
    (hr : rweb url = none) (ha : aweb info.article_url = none) :
    rpmgf_extract_article_data rweb url = none ∧
    acta_extract_article_data aweb info =
      { titulo := info.title, autores := info.authors, volume := info.volume,
        numero := info.numero, ano := info.year, periodo := info.period,
        paginas := info.pages, url_artigo := info.article_url } ∧
    (acta_extract_article_data aweb info).url_artigo = info.article_url := by
  refine ⟨?_, ?_, ?_⟩
  · rw [rpmgf_extract_article_data, hr]
  · rw [acta_extract_article_data, ha]
  · rw [acta_extract_article_data, ha]

/-- C5 witness: the theorem applied to remote states where both fetches
fail. -/
theorem C5_success_records_witness :
    rpmgf_extract_article_data (fun _ => none) "https://x/b" = none ∧
    acta_extract_article_data (fun _ => none) c5info =
      { titulo := c5info.title, autores := c5info.authors, volume := c5info.volume,
        numero := c5info.numero, ano := c5info.year, periodo := c5info.period,
        paginas := c5info.pages, url_artigo := c5info.article_url } ∧
    (acta_extract_article_data (fun _ => none) c5info).url_artigo = c5info.article_url :=
  C5_success_records (fun _ => none) (fun _ => none) "https://x/b" c5info rfl rfl

/-! ## C9: one record per author -/

/-- C9: for every successfully fetched article page, rpmgf
extract_article_data returns None when the page has no author-name span
(never an empty list), and otherwise one ArticleData per name span in
document order, each sharing the page-wide titulo, doi and citacao values
and the article URL, and carrying the stripped author name whenever it is
non-empty. -/
theorem C9_records_per_author (web : String → Option RArticlePage) (url : String)
    (page : RArticlePage) (hw : web url = some page) :
    (page.nameElems = [] → rpmgf_extract_article_data web url = none) ∧
    (page.nameElems ≠ [] →
      rpmgf_extract_article_data web url = some (rpmgf_records_of page url)) ∧
    (rpmgf_records_of page url).length = page.nameElems.length ∧
    (∀ (i : Nat) (hn : i < page.nameElems.length),
      (rpmgf_records_of page url)[i]? =
        some (rpmgf_mk_record page url (pyStrip (page.nameElems.get ⟨i, hn⟩).text)
          (find_affiliation_for_name (page.nameElems.get ⟨i, hn⟩).nextSiblings))) ∧
    (∀ autor afiliacao : String,
      (rpmgf_mk_record page url autor afiliacao).titulo = pyOr page.titulo "Sem título" ∧
      (rpmgf_mk_record page url autor afiliacao).doi = pyOr page.doi "Não fornecido" ∧
      (rpmgf_mk_record page url autor afiliacao).citacao = pyOr page.citacao "Não disponível" ∧
      (rpmgf_mk_record page url autor afiliacao).url = url ∧
      (autor ≠ "" → (rpmgf_mk_record page url autor afiliacao).autor = autor)) := by
  refine ⟨?_, ?_, ?_, ?_, ?_⟩
  · intro hnil
    simp [rpmgf_extract_article_data, hw, rpmgf_records_of,
      extract_authors_affiliations, hnil]
  · intro hne
    have hlen : (rpmgf_records_of page url).length = page.nameElems.length := by
      simp [rpmgf_records_of, extract_authors_affiliations]
    have hne2 : rpmgf_records_of page url ≠ [] := by
      intro h0
      apply hne
      rw [h0] at hlen
      exact (List.length_eq_zero.mp hlen.symm)
    simp only [rpmgf_extract_article_data, hw]
    rcases hL : rpmgf_records_of page url with _ | ⟨r, rs⟩
    · exact absurd hL hne2
    · simp
  · simp [rpmgf_records_of, extract_authors_affiliations]
  · intro i hn
    simp [rpmgf_records_of, extract_authors_affiliations, List.getElem?_map,
      List.getElem?_eq_getElem hn]
  · intro autor afiliacao
    refine ⟨rfl, rfl, rfl, rfl, fun h => ?_⟩
    simp [rpmgf_mk_record, pyOrS, h]

/-- C9 witness: on a concrete page with one author the theorem gives exactly
one record. -/
theorem C9_records_per_author_witness :
    rpmgf_extract_article_data c9web "https://x/art" =
      some (rpmgf_records_of c9page "https://x/art") ∧
    (rpmgf_records_of c9page "https://x/art").length = 1 := by
  have h := C9_records_per_author c9web "https://x/art" c9page rfl
  refine ⟨h.2.1 (by decide), ?_⟩
  rw [h.2.2.1]
  rfl

/-! ## C10: placeholder fields -/

/-- pyOr never yields the empty string when its default is non-empty. -/
theorem pyOr_ne_empty (x : Option String) (d : String) (hd : d ≠ "") :
    pyOr x d ≠ "" := by
  cases x with
  | none => exact hd
  | some s =>
    by_cases hs : s = "" <;> simp [pyOr, hs, hd]

/-- pyOrS never yields the empty string when its default is non-empty. -/
theorem pyOrS_ne_empty (s d : String) (hd : d ≠ "") : pyOrS s d ≠ "" := by
  by_cases hs : s = "" <;> simp [pyOrS, hs, hd]

/-- C10: every field of every record the RPMGF scrapers produce is a
non-empty (hence non-None) string except possibly the URL, and a metadata
element missing from the page is replaced by its fixed placeholder. -/
theorem C10_placeholder_fields (web : String → Option RArticlePage) (url : String)
    (page : RArticlePage) (recs : List ArticleData) (rec : ArticleData)
    (hw : web url = some page)
    (he : rpmgf_extract_article_data web url = some recs)
    (hm : rec ∈ recs) :
    (rec.revista ≠ "" ∧ rec.issn ≠ "" ∧ rec.volume ≠ "" ∧ rec.numero ≠ "" ∧
     rec.submissao ≠ "" ∧ rec.publicado ≠ "" ∧ rec.titulo ≠ "" ∧ rec.seccao ≠ "" ∧
     rec.doi ≠ "" ∧ rec.autor ≠ "" ∧ rec.afiliacao ≠ "" ∧ rec.citacao ≠ "") ∧
    (page.revista = none → rec.revista = "Não identificado") ∧
    (page.titulo = none → rec.titulo = "Sem título") ∧
    (page.doi = none → rec.doi = "Não fornecido") ∧
    (page.numero = none → rec.numero = "Não disponível") ∧
    rec.url = url := by
  simp only [rpmgf_extract_article_data, hw] at he
  by_cases hemp : (rpmgf_records_of page url).isEmpty = true
  · rw [if_pos hemp] at he
    exact absurd he (by simp)
  · rw [if_neg hemp] at he
    have hrecs : recs = rpmgf_records_of page url := (Option.some_inj.mp he).symm
    subst hrecs
    rw [rpmgf_records_of] at hm
    obtain ⟨ad, _, rfl⟩ := List.mem_map.mp hm
    refine ⟨⟨?_, ?_, ?_, ?_, ?_, ?_, ?_, ?_, ?_, ?_, ?_, ?_⟩, ?_, ?_, ?_, ?_, rfl⟩
    · exact pyOr_ne_empty _ _ (by decide)
    · exact pyOr_ne_empty _ _ (by decide)
    · exact pyOr_ne_empty _ _ (by decide)
    · exact pyOr_ne_empty _ _ (by decide)
    · exact pyOr_ne_empty _ _ (by decide)
    · exact pyOr_ne_empty _ _ (by decide)
    · exact pyOr_ne_empty _ _ (by decide)
    · exact pyOr_ne_empty _ _ (by decide)
    · exact pyOr_ne_empty _ _ (by decide)
    · exact pyOrS_ne_empty _ _ (by decide)
    · exact pyOrS_ne_empty _ _ (by decide)
    · exact pyOr_ne_empty _ _ (by decide)
    · intro h; simp [rpmgf_mk_record, h, pyOr]
    · intro h; simp [rpmgf_mk_record, h, pyOr]
    · intro h; simp [rpmgf_mk_record, h, pyOr]
    · intro h; simp [rpmgf_mk_record, h, pyOr]

/-- C10 witness: on a concrete page with every metadata element missing, the
single record carries the placeholders and a non-empty DOI field. -/
theorem C10_placeholder_fields_witness :
    (rpmgf_mk_record c10page "https://x/art10" "Rui Costa" "Não disponível").titulo
      = "Sem título" ∧
    (rpmgf_mk_record c10page "https://x/art10" "Rui Costa" "Não disponível").doi ≠ "" := by
  have h := C10_placeholder_fields c10web "https://x/art10" c10page
      (rpmgf_records_of c10page "https://x/art10")
      (rpmgf_mk_record c10page "https://x/art10" "Rui Costa" "Não disponível")
      rfl (by decide) (by decide)
  obtain ⟨⟨_, _, _, _, _, _, _, _, hdoi, _, _, _⟩, _, htit, _⟩ := h
  exact ⟨htit rfl, hdoi⟩
